import Mathlib

/-!
# tibblify: the "unspecified" sentinel vector (src/vctrs-unspecified.c)

A shallow embedding of `vec_unspecified`, `vec_is_unspecified` and
`vctrs_init_unspecified`, together with the part of the R object model these
three functions observe.

## Object model

An R object (`SEXP`) is a pointer to a heap node.  The embedding inlines the
pointee and keeps the node's address inside the value, so that

* two separately allocated nodes with the same content are different values
  (their addresses differ), and
* the C comparison `a == b` on two `SEXP`s is equality of the embedded values.

Symbols are interned by R (one node per name) and `CHARSXP`s are cached by
content, so both are identified by their text.  A C `NULL` pointer (the value
of both globals before load-time initialisation) is `none` of `Option SEXP`;
`R_NilValue` is an ordinary object.

Vectors are short vectors: their length fits `R_len_t`, as everywhere in this
file of the package.  The refusal of longer vectors by the runtime is kept in
`vec_is_unspecified_rt`, where the question is whether the detector can raise.
Memory exhaustion is not modelled.
-/

set_option autoImplicit false

namespace Tibblify

/-! ## The R object model -/

/-- The node types of R that the code can tell apart here. -/
inductive SEXPTYPE where
  | NILSXP
  | SYMSXP
  | LISTSXP
  | LGLSXP
  | INTSXP
  | STRSXP
  deriving DecidableEq, Repr

/-- Payload of a vector node.  `LGLSXP` and `INTSXP` both store a C `int`
array; a `STRSXP` stores one `CHARSXP` per slot, kept here by its text. -/
inductive VecData where
  | lgl (v : List Int)
  | int (v : List Int)
  | str (v : List String)
  deriving DecidableEq, Repr

/-- An R object together with its identity.
`cons` is a pairlist cell (`LISTSXP`); `vec` is a vector node with its header
bits (`obj` is the OBJECT bit, `named` is the not-mutable mark), its attribute
pairlist and its payload. -/
inductive SEXP where
  | nil : SEXP
  | sym (name : String) : SEXP
  | cons (addr : Nat) (car : SEXP) (cdr : SEXP) (tag : SEXP) : SEXP
  | vec (addr : Nat) (obj : Bool) (named : Bool) (attrib : SEXP) (data : VecData) : SEXP
  deriving DecidableEq, Repr

/-- The singleton `NULL` object of R. -/
def R_NilValue : SEXP := SEXP.nil

/-- The interned symbol `class`. -/
def R_ClassSymbol : SEXP := SEXP.sym "class"

/-- The interned symbol `dim`. -/
def R_DimSymbol : SEXP := SEXP.sym "dim"

/-- The missing logical value: `NA_LOGICAL` is `INT_MIN`. -/
def NA_LOGICAL : Int := -2147483648

/-- Errors that leave the C function without a return value: an R error raised
by the runtime (a non-local exit), or a crash of the process. -/
inductive RError where
  | InvalidLength
  | InvalidType
  | InvalidAttrib
  | NullPointer
  | OutOfBounds
  | LongVector
  deriving DecidableEq, Repr

/-- Process state observed by this file: the allocator's next free address, the
two globals of `vctrs-unspecified.c` (`none` is the C `NULL` they are
initialised with), and the addresses pinned with `R_PreserveObject`. -/
structure State where
  next : Nat
  unspecified_attrib : Option SEXP
  vctrs_shared_empty_uns : Option SEXP
  precious : List Nat
  deriving DecidableEq, Repr

/-- State of the process when the shared library has just been loaded. -/
def State.boot : State :=
  { next := 0, unspecified_attrib := none, vctrs_shared_empty_uns := none, precious := [] }

/-! ## R API primitives used by the three functions -/

/-- R primitive `TYPEOF(x)`. -/
def TYPEOF : SEXP → SEXPTYPE
  | .nil => .NILSXP
  | .sym _ => .SYMSXP
  | .cons _ _ _ _ => .LISTSXP
  | .vec _ _ _ _ (.lgl _) => .LGLSXP
  | .vec _ _ _ _ (.int _) => .INTSXP
  | .vec _ _ _ _ (.str _) => .STRSXP

/-- R primitive `ATTRIB(x)`: the attribute pairlist, `R_NilValue` when there is none. -/
def ATTRIB : SEXP → SEXP
  | .vec _ _ _ attrib _ => attrib
  | _ => R_NilValue

/-- R primitive `OBJECT(x)`: the header bit that marks a classed object. -/
def OBJECT : SEXP → Bool
  | .vec _ obj _ _ _ => obj
  | _ => false

/-- Address of a node; `R_NilValue` and symbols are not allocated here. -/
def addrOf : SEXP → Option Nat
  | .cons a _ _ _ => some a
  | .vec a _ _ _ _ => some a
  | _ => none

/-- Walk of an attribute pairlist for the cell tagged `name`; its `CAR`, or
`R_NilValue` when no cell has that tag. -/
def getAttrib0 : SEXP → SEXP → SEXP
  | .cons _ car cdr tag, name => if tag = name then car else getAttrib0 cdr name
  | _, _ => R_NilValue

/-- R primitive `Rf_getAttrib(x, name)` for the symbols `class` and `dim`. -/
def Rf_getAttrib (x : SEXP) (name : SEXP) : SEXP :=
  getAttrib0 (ATTRIB x) name

/-- The strings a character vector holds; no strings for any other object (a
`class` attribute is a character vector in R). -/
def strings : SEXP → List String
  | .vec _ _ _ _ (.str v) => v
  | _ => []

/-- R primitive `Rf_inherits(x, name)` of the R API: only an object with the OBJECT bit
set has its class attribute consulted; the answer is whether one of the class
strings is `name`. -/
def Rf_inherits (x : SEXP) (name : String) : Bool :=
  if OBJECT x then (strings (Rf_getAttrib x R_ClassSymbol)).any (fun k => k == name)
  else false

/-- Modelled from the spec: `has_dim` is declared in `tibblify.h`, which is not
among the source files embedded here.  The spec's words are "`x` carries
shape/dimensionality metadata": `x` has attributes and one of them is `dim`. -/
def has_dim (x : SEXP) : Bool :=
  ATTRIB x != R_NilValue && Rf_getAttrib x R_DimSymbol != R_NilValue

/-- R primitive `LOGICAL(x)`: the `int` array of a logical (or integer) vector. -/
def LOGICAL : SEXP → List Int
  | .vec _ _ _ _ (.lgl v) => v
  | .vec _ _ _ _ (.int v) => v
  | _ => []

/-- Number of cells of a pairlist. -/
def pairlistLength : SEXP → Nat
  | .cons _ _ cdr _ => pairlistLength cdr + 1
  | _ => 0

/-- R primitive `Rf_length(x)`. -/
def Rf_length : SEXP → Nat
  | .nil => 0
  | .sym _ => 1
  | .cons a car cdr tag => pairlistLength (.cons a car cdr tag)
  | .vec _ _ _ _ (.lgl v) => v.length
  | .vec _ _ _ _ (.int v) => v.length
  | .vec _ _ _ _ (.str v) => v.length

/-- R primitive `Rf_cons(car, cdr)`: a fresh pairlist cell with an empty tag. -/
def Rf_cons (s : State) (car cdr : SEXP) : SEXP × State :=
  (.cons s.next car cdr R_NilValue, { s with next := s.next + 1 })

/-- R primitive `Rf_allocList(n)`: a pairlist of `n` fresh cells holding `R_NilValue`. -/
def Rf_allocList (s : State) : Nat → SEXP × State
  | 0 => (R_NilValue, s)
  | k + 1 =>
    let r := Rf_allocList s k
    Rf_cons r.2 R_NilValue r.1

/-- Modelled from the spec: `Rf_allocVector` belongs to the R runtime, not to
the package.  The spec's words are "`n < 0` fails with an
InvalidLength error"; the runtime makes this test before it looks at the
type.  Otherwise a fresh node of the requested type and length is returned,
with no attributes and a cleared OBJECT bit.  The slots of a logical or integer
vector are uninitialised memory (zeros here), those of a character vector hold
the empty string.  A symbol cannot be allocated this way. -/
def Rf_allocVector (s : State) (type : SEXPTYPE) (n : Int) :
    Except RError (SEXP × State) :=
  if n < 0 then .error .InvalidLength
  else
    let s1 := { s with next := s.next + 1 }
    match type with
    | .NILSXP => .ok (R_NilValue, s)
    | .SYMSXP => .error .InvalidType
    | .LISTSXP => .ok (Rf_allocList s n.toNat)
    | .LGLSXP => .ok (.vec s.next false false R_NilValue (.lgl (List.replicate n.toNat 0)), s1)
    | .INTSXP => .ok (.vec s.next false false R_NilValue (.int (List.replicate n.toNat 0)), s1)
    | .STRSXP => .ok (.vec s.next false false R_NilValue (.str (List.replicate n.toNat "")), s1)

/-- R primitive `Rf_mkChar(str)`: the cached `CHARSXP` with that text. -/
def Rf_mkChar (str : String) : String := str

/-- R primitive `SET_STRING_ELT(x, i, v)`. -/
def SET_STRING_ELT : SEXP → Nat → String → SEXP
  | .vec a obj named attrib (.str v), i, c => .vec a obj named attrib (.str (v.set i c))
  | x, _, _ => x

/-- R primitive `SET_TAG(x, v)` on a pairlist cell. -/
def SET_TAG : SEXP → SEXP → SEXP
  | .cons a car cdr _, v => .cons a car cdr v
  | x, _ => x

/-- R primitive `SET_ATTRIB(x, v)`: replaces the whole attribute pairlist by the pointer
`v`, without copying it.  The runtime reads the type of `v` first: a C `NULL`
is dereferenced there (a crash), and a value that is neither a pairlist nor
`R_NilValue` is an R error. -/
def SET_ATTRIB (x : SEXP) (v : Option SEXP) : Except RError SEXP :=
  match v with
  | none => .error .NullPointer
  | some a =>
    if TYPEOF a != .LISTSXP && TYPEOF a != .NILSXP then .error .InvalidAttrib
    else
      match x with
      | .vec addr obj named _ data => .ok (.vec addr obj named a data)
      | _ => .ok x

/-- R primitive `SET_OBJECT(x, v)`. -/
def SET_OBJECT : SEXP → Bool → SEXP
  | .vec a _ named attrib data, v => .vec a v named attrib data
  | x, _ => x

/-- R primitive `MARK_NOT_MUTABLE(x)`. -/
def MARK_NOT_MUTABLE : SEXP → SEXP
  | .vec a obj _ attrib data => .vec a obj true attrib data
  | x => x

/-- R primitive `R_PreserveObject(x)`: pins the node for the life of the process. -/
def R_PreserveObject (s : State) (x : SEXP) : State :=
  match addrOf x with
  | some a => { s with precious := a :: s.precious }
  | none => s

/-- Body of the loop of `r_lgl_fill`: slots `i, i+1, ..` of `data`, `k` of
them, are overwritten with `value`. -/
def r_lgl_fill_from (data : List Int) (value : Int) (i : Nat) : Nat → List Int
  | 0 => data
  | k + 1 => r_lgl_fill_from (data.set i value) value (i + 1) k

/-- Modelled from the spec: `r_lgl_fill` is declared in `tibblify.h`, which is
not among the source files embedded here.  The spec's words are "fills every slot with
the absent-marker value": the loop `for (i = 0; i < n; ++i) data[i] = value`
over `LOGICAL(x)`. -/
def r_lgl_fill (x : SEXP) (value : Int) (n : Int) : SEXP :=
  match x with
  | .vec a obj named attrib (.lgl v) =>
      .vec a obj named attrib (.lgl (r_lgl_fill_from v value 0 n.toNat))
  | _ => x

/-! ## The three functions of `vctrs-unspecified.c` -/

/-- Source function `SEXP vec_unspecified(R_len_t n)`, lines 10-19.
`PROTECT` and `UNPROTECT` only shield `out` from the garbage collector and
have no counterpart here. -/
def vec_unspecified (s : State) (n : Int) : Except RError (SEXP × State) := do
  let (out, s1) ← Rf_allocVector s .LGLSXP n
  let out := r_lgl_fill out NA_LOGICAL n
  let out ← SET_ATTRIB out s1.unspecified_attrib
  let out := SET_OBJECT out true
  return (out, s1)

/-- Lines 33-45 of `vec_is_unspecified`: the checks made when `x` has an
attribute pairlist.  `some b` is `return b`; `none` falls out of the block. -/
def structural_tier (x : SEXP) (attrib : SEXP) : Option Bool :=
  if attrib != R_NilValue then
    if Rf_inherits x "vctrs_unspecified" then some true
    else if OBJECT x then some false
    else if has_dim x then some false
    else none
  else none

/-- Lines 52-59 of `vec_is_unspecified`: the loop over `p_x`, leaving with
`false` at the first element that is not `NA_LOGICAL`. -/
def all_na : List Int → Bool
  | [] => true
  | v :: rest => if v != NA_LOGICAL then false else all_na rest

/-- Source function `bool vec_is_unspecified(SEXP x)`, lines 22-60.  The global
`unspecified_attrib` is read from the state; the comparison with it is a
comparison of pointers. -/
def vec_is_unspecified (s : State) (x : SEXP) : Bool :=
  if TYPEOF x != .LGLSXP then false
  else
    let attrib := ATTRIB x
    if some attrib = s.unspecified_attrib then true
    else
      match structural_tier x attrib with
      | some b => b
      | none =>
        let n := Rf_length x
        if n = 0 then false
        else all_na (LOGICAL x)

/-- Source function `void vctrs_init_unspecified(SEXP ns)`, lines 62-77.  The argument `ns` is
not used by the body. -/
def vctrs_init_unspecified (s : State) : Except RError State := do
  let (unspecified_class, s1) ← Rf_allocVector s .STRSXP 1
  let unspecified_class := SET_STRING_ELT unspecified_class 0 (Rf_mkChar "vctrs_unspecified")
  let (cell, s2) := Rf_cons s1 unspecified_class R_NilValue
  let s3 := { s2 with unspecified_attrib := some cell }
  let s4 := R_PreserveObject s3 cell
  let s5 := { s4 with unspecified_attrib := s4.unspecified_attrib.map (fun a => SET_TAG a R_ClassSymbol) }
  let (empty, s6) ← vec_unspecified s5 0
  let s7 := { s6 with vctrs_shared_empty_uns := some empty }
  let s8 := R_PreserveObject s7 empty
  return { s8 with vctrs_shared_empty_uns := s8.vctrs_shared_empty_uns.map MARK_NOT_MUTABLE }

/-! ## Vocabulary of the specification -/

/-- The class name that marks an unspecified vector. -/
def sentinel_class : String := "vctrs_unspecified"

/-- The class-name list that R recognises for `x`: the strings of its `class`
attribute when `x` is marked as an object, no name otherwise.  This is the list
`Rf_inherits` searches. -/
def class_names (x : SEXP) : List String :=
  if OBJECT x then strings (Rf_getAttrib x R_ClassSymbol) else []

/-- The canonical tag as `vctrs_init_unspecified` builds it: one pairlist cell
at address `a`, tagged `class`, whose value is the character vector
`"vctrs_unspecified"` at address `b`. -/
def canonical_tag (a b : Nat) : SEXP :=
  .cons a (.vec b false false R_NilValue (.str [sentinel_class])) R_NilValue R_ClassSymbol

/-- The states the process can be in, as far as this file of the package can
change them: both globals are `NULL` after loading (whatever else the process
has allocated or pinned), and the state moves by `vctrs_init_unspecified` and
by `vec_unspecified`. -/
inductive Reachable : State → Prop where
  | boot (s : State) (ha : s.unspecified_attrib = none)
      (he : s.vctrs_shared_empty_uns = none) : Reachable s
  | init (s0 s : State) (h0 : Reachable s0)
      (h : vctrs_init_unspecified s0 = .ok s) : Reachable s
  | create (s s1 : State) (n : Int) (x : SEXP) (h0 : Reachable s)
      (h : vec_unspecified s n = .ok (x, s1)) : Reachable s1

/-- The registry after `initialize()`: a reachable state whose canonical tag is
no longer the `NULL` it was loaded with. -/
def Initialized (s : State) : Prop :=
  Reachable s ∧ s.unspecified_attrib ≠ none

/-- The state right after the first initialisation of a freshly loaded
process. -/
def State.ready : State :=
  { next := 3
    unspecified_attrib := some (canonical_tag 1 0)
    vctrs_shared_empty_uns := some (.vec 2 true true (canonical_tag 1 0) (.lgl []))
    precious := [2, 1] }

/-- A one-element logical vector holding `TRUE`, with the OBJECT bit set and a
`class` attribute `"vctrs_unspecified"` of its own (what R builds for
`structure(TRUE, class = "vctrs_unspecified")`). -/
def classed_true : SEXP :=
  .vec 10 true false
    (.cons 11 (.vec 12 false false R_NilValue (.str ["vctrs_unspecified"])) R_NilValue
      R_ClassSymbol)
    (.lgl [1])

/-- A one-element logical vector holding `TRUE` that carries the canonical tag
of `State.ready` itself (a vector from `vec_unspecified(1)` whose slot was
overwritten in place). -/
def tagged_true : SEXP :=
  .vec 13 true false (canonical_tag 1 0) (.lgl [1])

/-- A one-by-one logical matrix holding `NA`, classed `"vctrs_unspecified"`
(what R builds for `structure(NA, dim = c(1L, 1L), class = "vctrs_unspecified")`). -/
def classed_na_matrix : SEXP :=
  .vec 20 true false
    (.cons 21 (.vec 22 false false R_NilValue (.int [1, 1]))
      (.cons 23 (.vec 24 false false R_NilValue (.str ["vctrs_unspecified"])) R_NilValue
        R_ClassSymbol)
      R_DimSymbol)
    (.lgl [NA_LOGICAL])

/-- A vector reconstructed outside the session: two `NA`s and a class pairlist
that is equal in content to the canonical tag but is another node. -/
def restored_unspecified : SEXP :=
  .vec 30 true false (canonical_tag 31 32) (.lgl [NA_LOGICAL, NA_LOGICAL])

/-- Two `NA`s classed as something else (`structure(c(NA, NA), class = "foo")`). -/
def foo_na : SEXP :=
  .vec 40 true false
    (.cons 41 (.vec 42 false false R_NilValue (.str ["foo"])) R_NilValue R_ClassSymbol)
    (.lgl [NA_LOGICAL, NA_LOGICAL])

/-- A plain one-by-two logical matrix of `NA`s (`matrix(NA, 1, 2)`). -/
def na_matrix : SEXP :=
  .vec 50 false false
    (.cons 51 (.vec 52 false false R_NilValue (.int [1, 2])) R_NilValue R_DimSymbol)
    (.lgl [NA_LOGICAL, NA_LOGICAL])

/-- The plain logical vector `c(NA, NA)`. -/
def plain_na : SEXP := .vec 60 false false R_NilValue (.lgl [NA_LOGICAL, NA_LOGICAL])

/-- The plain logical vector `logical(0)`. -/
def plain_empty : SEXP := .vec 61 false false R_NilValue (.lgl [])

/-- The plain logical vector `c(NA, FALSE)`. -/
def plain_na_false : SEXP := .vec 62 false false R_NilValue (.lgl [NA_LOGICAL, 0])

/-- The integer vector `c(NA, NA)` carrying the canonical tag of `State.ready`
itself. -/
def tagged_int : SEXP :=
  .vec 70 true false (canonical_tag 1 0) (.int [NA_LOGICAL, NA_LOGICAL])

/-- The state after a second initialisation of the process of `State.ready`. -/
def State.reinit : State :=
  { next := 6
    unspecified_attrib := some (canonical_tag 4 3)
    vctrs_shared_empty_uns := some (.vec 5 true true (canonical_tag 4 3) (.lgl []))
    precious := [5, 4, 2, 1] }

/-- An object with its identity forgotten: addresses and the not-mutable mark
are cleared, types, OBJECT bits, attributes and payloads are kept.  Two objects
with the same content are equal as R values (what `identical()` compares). -/
def content : SEXP → SEXP
  | .nil => .nil
  | .sym name => .sym name
  | .cons _ car cdr tag => .cons 0 (content car) (content cdr) (content tag)
  | .vec _ obj _ attrib data => .vec 0 obj false (content attrib) data

/-- The logical vector `c(a = NA)`: its only attribute is `names`. -/
def named_na : SEXP :=
  .vec 80 false false
    (.cons 81 (.vec 82 false false R_NilValue (.str ["a"])) R_NilValue (.sym "names"))
    (.lgl [NA_LOGICAL])

/-- The logical vector `c(a = FALSE)`: its only attribute is `names`. -/
def named_false : SEXP :=
  .vec 83 false false
    (.cons 84 (.vec 85 false false R_NilValue (.str ["a"])) R_NilValue (.sym "names"))
    (.lgl [0])

/-- The logical vector `FALSE` carrying the canonical tag of `State.ready`
itself, with a cleared OBJECT bit. -/
def tagged_plain_false : SEXP :=
  .vec 14 false false (canonical_tag 1 0) (.lgl [0])

/-! ## The detector with the accessors' runtime checks -/

/-- R primitive `LOGICAL(x)` with its runtime check kept: an R error unless
`x` is a logical vector. -/
def LOGICAL_checked : SEXP → Except RError (List Int)
  | .vec _ _ _ _ (.lgl v) => .ok v
  | _ => .error .InvalidType

/-- Lines 53-59 of `vec_is_unspecified` as an index loop: `i` is the loop
variable, `k` the number of iterations left, and `p_x[i]` is read from the
array; a read past its end is a memory fault. -/
def scan_checked (p_x : List Int) (i : Nat) : Nat → Except RError Bool
  | 0 => .ok true
  | k + 1 =>
    match p_x[i]? with
    | none => .error .OutOfBounds
    | some v => if v != NA_LOGICAL then .ok false else scan_checked p_x (i + 1) k

/-- Source function `bool vec_is_unspecified(SEXP x)`, lines 22-60, once more,
with the two exits kept that concern the array of `x`: the R error of
`LOGICAL` on a vector that is not logical, and the fault of reading `p_x[i]`
past the end.  A `return` is `.ok`.  The R errors that `Rf_length` and
`Rf_inherits` can raise are not kept here; `vec_is_unspecified_rt` below keeps
them as well. -/
def vec_is_unspecified_checked (s : State) (x : SEXP) : Except RError Bool :=
  if TYPEOF x != .LGLSXP then .ok false
  else
    let attrib := ATTRIB x
    if some attrib = s.unspecified_attrib then .ok true
    else
      match structural_tier x attrib with
      | some b => .ok b
      | none =>
        let n := Rf_length x
        if n = 0 then .ok false
        else do
          let p_x ← LOGICAL_checked x
          scan_checked p_x 0 n

/-! ## The detector with every exit of the runtime -/

/-- The largest length an `R_len_t` holds (`INT_MAX`). -/
def R_LEN_T_MAX : Nat := 2147483647

/-- R primitive `Rf_length(x)` with its runtime check kept: the result is an
`R_len_t`, and on a vector node with more than `R_LEN_T_MAX` elements (a long
vector) the runtime raises the R error "long vectors not supported yet". -/
def Rf_length_rt (x : SEXP) : Except RError Nat :=
  match x with
  | .vec _ _ _ _ _ => if R_LEN_T_MAX < Rf_length x then .error .LongVector else .ok (Rf_length x)
  | _ => .ok (Rf_length x)

/-- R primitive `Rf_inherits(x, name)` with its runtime checks kept.  For an
object with the OBJECT bit set, `klass = getAttrib(x, R_ClassSymbol)` and
`nclass = length(klass)` are computed, and the loop compares
`STRING_ELT(klass, i)` with `name` for `i < nclass`; `STRING_ELT` raises an R
error unless `klass` is a character vector, which happens at `i = 0` when
`nclass > 0`. -/
def Rf_inherits_rt (x : SEXP) (name : String) : Except RError Bool :=
  if OBJECT x then do
    let klass := Rf_getAttrib x R_ClassSymbol
    let nclass ← Rf_length_rt klass
    if nclass = 0 then .ok false
    else
      match klass with
      | .vec _ _ _ _ (.str v) => .ok (v.any (fun k => k == name))
      | _ => .error .InvalidType
  else .ok false

/-- Lines 33-45 of `vec_is_unspecified` with the exits of `Rf_inherits` kept.
`some b` is `return b`; `none` falls out of the block. -/
def structural_tier_rt (x : SEXP) (attrib : SEXP) : Except RError (Option Bool) :=
  if attrib != R_NilValue then do
    let inh ← Rf_inherits_rt x "vctrs_unspecified"
    if inh then .ok (some true)
    else if OBJECT x then .ok (some false)
    else if has_dim x then .ok (some false)
    else .ok none
  else .ok none

/-- Source function `bool vec_is_unspecified(SEXP x)`, lines 22-60, with every
exit the R runtime has on these lines for an object that fits in memory: a
`return` is `.ok`; the R errors of `Rf_inherits` (line 36), `Rf_length`
(line 47) and `LOGICAL` (line 52) and the fault of reading `p_x[i]` past the
end (line 54) are `.error`. -/
def vec_is_unspecified_rt (s : State) (x : SEXP) : Except RError Bool :=
  if TYPEOF x != .LGLSXP then .ok false
  else
    let attrib := ATTRIB x
    if some attrib = s.unspecified_attrib then .ok true
    else do
      let tier ← structural_tier_rt x attrib
      match tier with
      | some b => .ok b
      | none =>
        let n ← Rf_length_rt x
        if n = 0 then .ok false
        else
          let p_x ← LOGICAL_checked x
          scan_checked p_x 0 n

/-- The logical vector `rep(NA, 2^31)`: no attributes, 2147483648 elements. -/
def long_na : SEXP :=
  .vec 90 false false R_NilValue (.lgl (List.replicate 2147483648 NA_LOGICAL))

/-- A logical vector `NA` with the OBJECT bit set whose `class` attribute is
the integer vector `1` (built from C with `SET_ATTRIB`; R itself refuses to
set such a class). -/
def int_classed_na : SEXP :=
  .vec 91 true false
    (.cons 92 (.vec 93 false false R_NilValue (.int [1])) R_NilValue R_ClassSymbol)
    (.lgl [NA_LOGICAL])

/-! ## The decision table -/

/-- The closed formula of the decision table, written after its statement:
`isBoolean(x) AND (tag(x) is reference-identical to the canonical tag OR
(hasAttributes(x) AND classNames(x) contains the canonical class name) OR
(NOT (hasAttributes(x) AND (isClassified(x) OR hasDim(x))) AND length(x) > 0
AND every element of x is the absent marker))`. -/
def decision_table (s : State) (x : SEXP) : Bool :=
  (TYPEOF x == .LGLSXP) &&
    (decide (some (ATTRIB x) = s.unspecified_attrib) ||
      ((ATTRIB x != R_NilValue) && (class_names x).contains sentinel_class) ||
      (!((ATTRIB x != R_NilValue) && (OBJECT x || has_dim x)) &&
        decide (0 < Rf_length x) && (LOGICAL x).all (fun v => v == NA_LOGICAL)))

/-! ## Auxiliary facts -/

theorem r_lgl_fill_from_eq (value : Int) (k : Nat) :
    ∀ (data : List Int) (i : Nat), data.length = i + k →
      r_lgl_fill_from data value i k = data.take i ++ List.replicate k value := by
  induction k with
  | zero =>
    intro data i h
    have hle : data.length ≤ i := by omega
    simp [r_lgl_fill_from, List.take_of_length_le hle]
  | succ k ih =>
    intro data i h
    have hlt : i < data.length := by omega
    rw [r_lgl_fill_from, ih (data.set i value) (i + 1) (by simp; omega)]
    rw [List.replicate_succ, List.take_succ]
    have hset : ((data.take i).set i value) = data.take i :=
      List.set_eq_of_length_le (by simp)
    simp [List.getElem?_set_self hlt, List.set_take, hset]

theorem r_lgl_fill_from_replicate (value : Int) (k : Nat) :
    r_lgl_fill_from (List.replicate k 0) value 0 k = List.replicate k value := by
  rw [r_lgl_fill_from_eq value k _ 0 (by simp)]
  simp

/-- With the canonical tag in place and a non-negative length,
`vec_unspecified` returns normally, and this is the vector it returns. -/
theorem vec_unspecified_eq (s : State) (n : Int) (a b : Nat) (hn : 0 ≤ n)
    (ht : s.unspecified_attrib = some (canonical_tag a b)) :
    vec_unspecified s n =
      .ok (.vec s.next true false (canonical_tag a b)
              (.lgl (List.replicate n.toNat NA_LOGICAL)),
           { s with next := s.next + 1 }) := by
  have hn2 : ¬ n < 0 := by omega
  simp [vec_unspecified, Rf_allocVector, hn2, r_lgl_fill, r_lgl_fill_from_replicate,
    SET_ATTRIB, ht, canonical_tag, TYPEOF, SET_OBJECT, bind, Except.bind, pure, Except.pure]

/-- While the canonical tag is still `NULL`, `vec_unspecified` never returns:
a negative length is an R error, any other length ends in the dereference of
the `NULL` tag. -/
theorem vec_unspecified_null (s : State) (n : Int) (ht : s.unspecified_attrib = none)
    (r : SEXP × State) : vec_unspecified s n ≠ .ok r := by
  by_cases hn : n < 0
  · simp [vec_unspecified, Rf_allocVector, hn, bind, Except.bind]
  · simp [vec_unspecified, Rf_allocVector, hn, SET_ATTRIB, ht, bind, Except.bind]

/-- The initialisation never fails, and this is the state it leaves. -/
theorem vctrs_init_unspecified_eq (s : State) :
    vctrs_init_unspecified s =
      .ok { next := s.next + 3
            unspecified_attrib := some (canonical_tag (s.next + 1) s.next)
            vctrs_shared_empty_uns :=
              some (.vec (s.next + 2) true true (canonical_tag (s.next + 1) s.next) (.lgl []))
            precious := (s.next + 2) :: (s.next + 1) :: s.precious } := by
  simp [vctrs_init_unspecified, Rf_allocVector, SET_STRING_ELT, Rf_mkChar, Rf_cons,
    R_PreserveObject, addrOf, SET_TAG, vec_unspecified, r_lgl_fill, r_lgl_fill_from,
    SET_ATTRIB, TYPEOF, SET_OBJECT, MARK_NOT_MUTABLE, canonical_tag, sentinel_class,
    R_NilValue, bind, Except.bind, pure, Except.pure]

/-- In a reachable state the canonical tag is either still `NULL` or the cell
built by the initialisation. -/
theorem reachable_tag {s : State} (h : Reachable s) :
    s.unspecified_attrib = none ∨
      ∃ a b, s.unspecified_attrib = some (canonical_tag a b) := by
  induction h with
  | boot s ha he => exact Or.inl ha
  | init s0 s h0 h ih =>
    rw [vctrs_init_unspecified_eq] at h
    injection h with h
    subst h
    exact Or.inr ⟨_, _, rfl⟩
  | create s s1 n x h0 h ih =>
    rcases ih with ih | ⟨a, b, ih⟩
    · exact absurd h (vec_unspecified_null s n ih (x, s1))
    · by_cases hn : 0 ≤ n
      · rw [vec_unspecified_eq s n a b hn ih] at h
        injection h with h
        injection h with h1 h2
        subst h2
        exact Or.inr ⟨a, b, ih⟩
      · have hn2 : n < 0 := by omega
        simp [vec_unspecified, Rf_allocVector, hn2, bind, Except.bind] at h

theorem initialized_tag {s : State} (h : Initialized s) :
    ∃ a b, s.unspecified_attrib = some (canonical_tag a b) := by
  rcases reachable_tag h.1 with h1 | h1
  · exact absurd h1 h.2
  · exact h1

theorem init_boot_eq_ready : vctrs_init_unspecified State.boot = .ok State.ready := rfl

theorem ready_initialized : Initialized State.ready :=
  ⟨Reachable.init State.boot State.ready (Reachable.boot _ rfl rfl) rfl, by
    simp [State.ready]⟩

theorem all_na_iff (l : List Int) : all_na l = true ↔ ∀ v ∈ l, v = NA_LOGICAL := by
  induction l with
  | nil => simp [all_na]
  | cons a l ih =>
    by_cases ha : a = NA_LOGICAL
    · simp [all_na, ha, ih]
    · simp [all_na, ha]

theorem Rf_inherits_iff (x : SEXP) (name : String) :
    Rf_inherits x name = true ↔ name ∈ class_names x := by
  unfold Rf_inherits class_names
  by_cases ho : OBJECT x = true
  · simp only [ho, if_true, List.any_eq_true, beq_iff_eq]
    constructor
    · rintro ⟨k, hk, rfl⟩
      exact hk
    · intro h
      exact ⟨name, h, rfl⟩
  · simp [ho]

/-- The value of `vec_is_unspecified` on a logical vector whose attribute
pairlist is not the canonical tag. -/
theorem vec_is_unspecified_of_ne (s : State) (x : SEXP) (hty : TYPEOF x = .LGLSXP)
    (hne : some (ATTRIB x) ≠ s.unspecified_attrib) :
    vec_is_unspecified s x =
      match structural_tier x (ATTRIB x) with
      | some b => b
      | none => if Rf_length x = 0 then false else all_na (LOGICAL x) := by
  simp [vec_is_unspecified, hty, hne]

/-- In a reachable state, a vector that carries the canonical tag itself and
is marked as an object has exactly the sentinel class, and no `dim`. -/
theorem reachable_of_tagged {s : State} (hs : Reachable s) (x : SEXP)
    (h : some (ATTRIB x) = s.unspecified_attrib) :
    ATTRIB x ≠ R_NilValue ∧ has_dim x = false ∧
      (OBJECT x = true → sentinel_class ∈ class_names x) := by
  rcases reachable_tag hs with h1 | ⟨a, b, h1⟩
  · rw [h1] at h
    cases h
  · rw [h1] at h
    injection h with h
    refine ⟨?_, ?_, ?_⟩
    · rw [h]
      simp [canonical_tag, R_NilValue]
    · simp [has_dim, Rf_getAttrib, h, canonical_tag, getAttrib0, R_ClassSymbol, R_DimSymbol,
        R_NilValue]
    · intro ho
      simp [class_names, ho, Rf_getAttrib, h, canonical_tag, getAttrib0, strings]

/-! ## The factory output is recognised -/

/-- C1: after `initialize()`, for every length `n ≥ 0`, `create(n)` returns a
vector and `is_sentinel` answers true on it
(`vec_is_unspecified(vec_unspecified(n))`). -/
theorem vec_is_unspecified_vec_unspecified (s : State) (n : Int)
    (hs : Initialized s) (hn : 0 ≤ n) :
    ∃ x s1, vec_unspecified s n = .ok (x, s1) ∧ vec_is_unspecified s1 x = true := by
  obtain ⟨a, b, ht⟩ := initialized_tag hs
  refine ⟨_, _, vec_unspecified_eq s n a b hn ht, ?_⟩
  simp [vec_is_unspecified, TYPEOF, ATTRIB, ht]

theorem vec_is_unspecified_vec_unspecified_witness :
    Initialized State.ready ∧ (0 : Int) ≤ 3 ∧
      ∃ x s1, vec_unspecified State.ready 3 = .ok (x, s1) ∧
        vec_is_unspecified s1 x = true :=
  ⟨ready_initialized, by decide,
    vec_is_unspecified_vec_unspecified State.ready 3 ready_initialized (by decide)⟩

/-! ## Vectors with an element that is not `NA` -/

/-- C2, as stated, fails: after initialisation, the logical vector `TRUE`
classed `"vctrs_unspecified"` has an element that is not `NA`, and
`vec_is_unspecified` answers true on it (the class-name check returns before
any element is read); so does the vector `TRUE` that carries the canonical tag
itself (the pointer comparison returns before any element is read). -/
theorem classed_true_is_unspecified :
    Initialized State.ready ∧
      (TYPEOF classed_true = .LGLSXP ∧
        (∃ v ∈ LOGICAL classed_true, v ≠ NA_LOGICAL) ∧
        vec_is_unspecified State.ready classed_true = true) ∧
      (TYPEOF tagged_true = .LGLSXP ∧
        (∃ v ∈ LOGICAL tagged_true, v ≠ NA_LOGICAL) ∧
        vec_is_unspecified State.ready tagged_true = true) :=
  ⟨ready_initialized, ⟨by decide, by decide, by decide⟩,
    ⟨by decide, by decide, by decide⟩⟩

/-- C2, amended: a vector with at least one element different from `NA`
whose attribute pairlist is not reference-identical to the canonical tag and
whose recognised class-name list does not contain `"vctrs_unspecified"` is not
a sentinel, whatever its length and its other attributes. -/
theorem not_unspecified_of_non_na (s : State) (x : SEXP)
    (hne : some (ATTRIB x) ≠ s.unspecified_attrib)
    (hcls : sentinel_class ∉ class_names x)
    (hv : ∃ v ∈ LOGICAL x, v ≠ NA_LOGICAL) :
    vec_is_unspecified s x = false := by
  by_cases hty : TYPEOF x = .LGLSXP
  · have hinh : Rf_inherits x "vctrs_unspecified" = false := by
      rw [Bool.eq_false_iff]
      intro h
      exact hcls ((Rf_inherits_iff x _).1 h)
    have hscan : all_na (LOGICAL x) = false := by
      rw [Bool.eq_false_iff]
      intro h
      obtain ⟨v, hv1, hv2⟩ := hv
      exact hv2 ((all_na_iff _).1 h v hv1)
    rw [vec_is_unspecified_of_ne s x hty hne]
    simp only [structural_tier, hinh, hscan]
    by_cases h1 : (ATTRIB x != R_NilValue) = true <;> by_cases h2 : OBJECT x = true <;>
      by_cases h3 : has_dim x = true <;> simp [h1, h2, h3]
  · simp [vec_is_unspecified, hty]

theorem not_unspecified_of_non_na_witness :
    some (ATTRIB plain_na_false) ≠ State.ready.unspecified_attrib ∧
      sentinel_class ∉ class_names plain_na_false ∧
      (∃ v ∈ LOGICAL plain_na_false, v ≠ NA_LOGICAL) ∧
      vec_is_unspecified State.ready plain_na_false = false :=
  ⟨by decide, by decide, by decide,
    not_unspecified_of_non_na State.ready plain_na_false (by decide) (by decide) (by decide)⟩

/-! ## The structural tier -/

/-- C3: a boolean vector with an attribute pairlist that is not
reference-identical to the canonical tag, but whose recognised class-name list
contains `"vctrs_unspecified"`, is a sentinel (whatever its length and
elements). -/
theorem is_unspecified_of_class (s : State) (x : SEXP)
    (hty : TYPEOF x = .LGLSXP)
    (hattr : ATTRIB x ≠ R_NilValue)
    (hne : some (ATTRIB x) ≠ s.unspecified_attrib)
    (hcls : sentinel_class ∈ class_names x) :
    vec_is_unspecified s x = true := by
  have hinh : Rf_inherits x "vctrs_unspecified" = true := (Rf_inherits_iff x _).2 hcls
  rw [vec_is_unspecified_of_ne s x hty hne]
  simp [structural_tier, hinh, hattr]

theorem is_unspecified_of_class_witness :
    TYPEOF restored_unspecified = .LGLSXP ∧
      ATTRIB restored_unspecified ≠ R_NilValue ∧
      some (ATTRIB restored_unspecified) ≠ State.ready.unspecified_attrib ∧
      sentinel_class ∈ class_names restored_unspecified ∧
      vec_is_unspecified State.ready restored_unspecified = true :=
  ⟨by decide, by decide, by decide, by decide,
    is_unspecified_of_class State.ready restored_unspecified (by decide) (by decide)
      (by decide) (by decide)⟩

/-- C4: a boolean vector that is marked as an object, carries attributes, and
whose recognised class-name list does not contain `"vctrs_unspecified"` is not
a sentinel, for every length and whatever its elements; in particular when
they are all `NA`. -/
theorem not_unspecified_of_other_class (s : State) (x : SEXP)
    (hs : Reachable s)
    (hty : TYPEOF x = .LGLSXP)
    (hobj : OBJECT x = true)
    (hattr : ATTRIB x ≠ R_NilValue)
    (hcls : sentinel_class ∉ class_names x) :
    vec_is_unspecified s x = false := by
  have hne : some (ATTRIB x) ≠ s.unspecified_attrib := fun h =>
    hcls ((reachable_of_tagged hs x h).2.2 hobj)
  have hinh : Rf_inherits x "vctrs_unspecified" = false := by
    rw [Bool.eq_false_iff]
    intro h
    exact hcls ((Rf_inherits_iff x _).1 h)
  rw [vec_is_unspecified_of_ne s x hty hne]
  simp [structural_tier, hinh, hattr, hobj]

theorem not_unspecified_of_other_class_witness :
    Reachable State.ready ∧ TYPEOF foo_na = .LGLSXP ∧ OBJECT foo_na = true ∧
      ATTRIB foo_na ≠ R_NilValue ∧ sentinel_class ∉ class_names foo_na ∧
      vec_is_unspecified State.ready foo_na = false :=
  ⟨ready_initialized.1, by decide, by decide, by decide, by decide,
    not_unspecified_of_other_class State.ready foo_na ready_initialized.1 (by decide)
      (by decide) (by decide) (by decide)⟩

/-- C5, as stated, fails: after initialisation, the one-by-one logical matrix
of `NA` classed `"vctrs_unspecified"` carries `dim` metadata, all its elements
are `NA`, and `vec_is_unspecified` answers true on it (the class-name check
comes before the `dim` check). -/
theorem classed_na_matrix_is_unspecified :
    Initialized State.ready ∧ TYPEOF classed_na_matrix = .LGLSXP ∧
      has_dim classed_na_matrix = true ∧
      (∀ v ∈ LOGICAL classed_na_matrix, v = NA_LOGICAL) ∧
      vec_is_unspecified State.ready classed_na_matrix = true :=
  ⟨ready_initialized, by decide, by decide, by decide, by decide⟩

/-- C5, amended: a boolean vector that carries `dim` metadata and whose
recognised class-name list does not contain `"vctrs_unspecified"` is not a
sentinel, whatever its elements; in particular when they are all `NA`. -/
theorem not_unspecified_of_dim (s : State) (x : SEXP)
    (hs : Reachable s)
    (hty : TYPEOF x = .LGLSXP)
    (hdim : has_dim x = true)
    (hcls : sentinel_class ∉ class_names x) :
    vec_is_unspecified s x = false := by
  have hne : some (ATTRIB x) ≠ s.unspecified_attrib := fun h => by
    have := (reachable_of_tagged hs x h).2.1
    rw [hdim] at this
    cases this
  have hinh : Rf_inherits x "vctrs_unspecified" = false := by
    rw [Bool.eq_false_iff]
    intro h
    exact hcls ((Rf_inherits_iff x _).1 h)
  have hattr : ATTRIB x ≠ R_NilValue := by
    intro h
    simp [has_dim, h] at hdim
  rw [vec_is_unspecified_of_ne s x hty hne]
  by_cases h2 : OBJECT x = true <;> simp [structural_tier, hinh, hattr, hdim, h2]

theorem not_unspecified_of_dim_witness :
    Reachable State.ready ∧ TYPEOF na_matrix = .LGLSXP ∧ has_dim na_matrix = true ∧
      sentinel_class ∉ class_names na_matrix ∧
      vec_is_unspecified State.ready na_matrix = false :=
  ⟨ready_initialized.1, by decide, by decide, by decide,
    not_unspecified_of_dim State.ready na_matrix ready_initialized.1 (by decide)
      (by decide) (by decide)⟩

/-! ## The fallback scan -/

/-- C6: a boolean vector with no attributes and length `> 0` is a sentinel if
and only if every element is `NA`. -/
theorem plain_is_unspecified_iff (s : State) (x : SEXP)
    (hs : Reachable s)
    (hty : TYPEOF x = .LGLSXP)
    (hattr : ATTRIB x = R_NilValue)
    (hlen : 0 < Rf_length x) :
    vec_is_unspecified s x = true ↔ ∀ v ∈ LOGICAL x, v = NA_LOGICAL := by
  have hne : some (ATTRIB x) ≠ s.unspecified_attrib := fun h =>
    (reachable_of_tagged hs x h).1 hattr
  have hlen2 : Rf_length x ≠ 0 := by omega
  rw [vec_is_unspecified_of_ne s x hty hne]
  simp [structural_tier, hattr, hlen2, all_na_iff]

theorem plain_is_unspecified_iff_witness :
    Reachable State.ready ∧ TYPEOF plain_na = .LGLSXP ∧ ATTRIB plain_na = R_NilValue ∧
      0 < Rf_length plain_na ∧
      (vec_is_unspecified State.ready plain_na = true ↔
        ∀ v ∈ LOGICAL plain_na, v = NA_LOGICAL) :=
  ⟨ready_initialized.1, by decide, by decide, by decide,
    plain_is_unspecified_iff State.ready plain_na ready_initialized.1 (by decide)
      (by decide) (by decide)⟩

/-- C7: a boolean vector with no attributes and length 0 is not a sentinel. -/
theorem plain_empty_not_unspecified (s : State) (x : SEXP)
    (hs : Reachable s)
    (hty : TYPEOF x = .LGLSXP)
    (hattr : ATTRIB x = R_NilValue)
    (hlen : Rf_length x = 0) :
    vec_is_unspecified s x = false := by
  have hne : some (ATTRIB x) ≠ s.unspecified_attrib := fun h =>
    (reachable_of_tagged hs x h).1 hattr
  rw [vec_is_unspecified_of_ne s x hty hne]
  simp [structural_tier, hattr, hlen]

theorem plain_empty_not_unspecified_witness :
    Reachable State.ready ∧ TYPEOF plain_empty = .LGLSXP ∧
      ATTRIB plain_empty = R_NilValue ∧ Rf_length plain_empty = 0 ∧
      vec_is_unspecified State.ready plain_empty = false :=
  ⟨ready_initialized.1, by decide, by decide, by decide,
    plain_empty_not_unspecified State.ready plain_empty ready_initialized.1
      (by decide) (by decide) (by decide)⟩

/-! ## The type tier -/

/-- C8: a value whose type is not `LGLSXP` is not a sentinel, whatever its
attributes, class names, length and contents, even when its attribute pairlist
is the canonical tag itself. -/
theorem not_unspecified_of_not_lgl (s : State) (x : SEXP)
    (hty : TYPEOF x ≠ .LGLSXP) :
    vec_is_unspecified s x = false := by
  simp [vec_is_unspecified, hty]

theorem not_unspecified_of_not_lgl_witness :
    TYPEOF tagged_int ≠ .LGLSXP ∧
      some (ATTRIB tagged_int) = State.ready.unspecified_attrib ∧
      vec_is_unspecified State.ready tagged_int = false :=
  ⟨by decide, by decide, not_unspecified_of_not_lgl State.ready tagged_int (by decide)⟩

/-! ## The factory -/

/-- C9: after `initialize()`, for every `n ≥ 0`, `create(n)` returns a boolean
vector of length exactly `n` whose elements are all `NA`, whose attribute
pairlist is the canonical tag itself (the registry's pointer, which the call
leaves in place, so that any two created vectors share it), and whose OBJECT
bit is set; the registry is still initialised afterwards. -/
theorem vec_unspecified_spec (s : State) (n : Int)
    (hs : Initialized s) (hn : 0 ≤ n) :
    ∃ x s1, vec_unspecified s n = .ok (x, s1) ∧
      TYPEOF x = .LGLSXP ∧
      (Rf_length x : Int) = n ∧
      (∀ v ∈ LOGICAL x, v = NA_LOGICAL) ∧
      some (ATTRIB x) = s.unspecified_attrib ∧
      s1.unspecified_attrib = s.unspecified_attrib ∧
      OBJECT x = true ∧
      Initialized s1 := by
  obtain ⟨a, b, ht⟩ := initialized_tag hs
  have hrun := vec_unspecified_eq s n a b hn ht
  have hs1 : Initialized { s with next := s.next + 1 } :=
    ⟨Reachable.create s _ n _ hs.1 hrun, hs.2⟩
  exact ⟨_, _, hrun, by simp [TYPEOF], by simp [Rf_length, hn], by simp [LOGICAL],
    by simp [ATTRIB, ht], rfl, by simp [OBJECT], hs1⟩

theorem vec_unspecified_spec_witness :
    Initialized State.ready ∧ (0 : Int) ≤ 2 ∧
      ∃ x s1, vec_unspecified State.ready 2 = .ok (x, s1) ∧
        TYPEOF x = .LGLSXP ∧
        (Rf_length x : Int) = 2 ∧
        (∀ v ∈ LOGICAL x, v = NA_LOGICAL) ∧
        some (ATTRIB x) = State.ready.unspecified_attrib ∧
        s1.unspecified_attrib = State.ready.unspecified_attrib ∧
        OBJECT x = true ∧
        Initialized s1 :=
  ⟨ready_initialized, by decide,
    vec_unspecified_spec State.ready 2 ready_initialized (by decide)⟩

/-- C10: for every `n < 0`, `create(n)` fails with the InvalidLength error and
returns no vector, in every state. -/
theorem vec_unspecified_negative (s : State) (n : Int) (hn : n < 0) :
    vec_unspecified s n = .error .InvalidLength := by
  simp [vec_unspecified, Rf_allocVector, hn, bind, Except.bind]

theorem vec_unspecified_negative_witness :
    (-1 : Int) < 0 ∧ vec_unspecified State.ready (-1) = .error .InvalidLength :=
  ⟨by decide, vec_unspecified_negative State.ready (-1) (by decide)⟩

/-! ## The registry -/

/-- In a reachable state both globals are still `NULL`, or the tag is the cell
built by the initialisation and the shared empty vector is the marked,
zero-length logical vector that carries this very cell. -/
theorem reachable_registry {s : State} (h : Reachable s) :
    (s.unspecified_attrib = none ∧ s.vctrs_shared_empty_uns = none) ∨
      ∃ a b c, s.unspecified_attrib = some (canonical_tag a b) ∧
        s.vctrs_shared_empty_uns = some (.vec c true true (canonical_tag a b) (.lgl [])) := by
  induction h with
  | boot s ha he => exact Or.inl ⟨ha, he⟩
  | init s0 s h0 h ih =>
    rw [vctrs_init_unspecified_eq] at h
    injection h with h
    subst h
    exact Or.inr ⟨_, _, _, rfl, rfl⟩
  | create s s1 n x h0 h ih =>
    rcases ih with ⟨ih, _⟩ | ⟨a, b, c, ih, ie⟩
    · exact absurd h (vec_unspecified_null s n ih (x, s1))
    · by_cases hn : 0 ≤ n
      · rw [vec_unspecified_eq s n a b hn ih] at h
        injection h with h
        injection h with h1 h2
        subst h2
        exact Or.inr ⟨a, b, c, ih, ie⟩
      · have hn2 : n < 0 := by omega
        simp [vec_unspecified, Rf_allocVector, hn2, bind, Except.bind] at h

/-- C11: after `initialize()`, `create(0)` returns a vector that is value-equal
to the registry's canonical empty instance: both are boolean vectors of length
0 with the OBJECT bit set and the canonical tag attached, they have the same
content once their identity is forgotten, and `is_sentinel` answers true on
both (the pointer comparison of the identity tier holds for both). -/
theorem vec_unspecified_zero_eq_shared_empty (s : State) (hs : Initialized s) :
    ∃ x s1 e, vec_unspecified s 0 = .ok (x, s1) ∧
      s.vctrs_shared_empty_uns = some e ∧
      (TYPEOF x = .LGLSXP ∧ TYPEOF e = .LGLSXP) ∧
      (Rf_length x = 0 ∧ Rf_length e = 0) ∧
      (OBJECT x = true ∧ OBJECT e = true) ∧
      (some (ATTRIB x) = s1.unspecified_attrib ∧ some (ATTRIB e) = s1.unspecified_attrib) ∧
      content x = content e ∧
      (vec_is_unspecified s1 x = true ∧ vec_is_unspecified s1 e = true) := by
  rcases reachable_registry hs.1 with ⟨h0, _⟩ | ⟨a, b, c, ht, he⟩
  · exact absurd h0 hs.2
  · refine ⟨_, _, _, vec_unspecified_eq s 0 a b (le_refl 0) ht, he, ?_⟩
    simp [TYPEOF, Rf_length, OBJECT, ATTRIB, ht, content, vec_is_unspecified]

theorem vec_unspecified_zero_eq_shared_empty_witness :
    Initialized State.ready ∧
      ∃ x s1 e, vec_unspecified State.ready 0 = .ok (x, s1) ∧
        State.ready.vctrs_shared_empty_uns = some e ∧
        (TYPEOF x = .LGLSXP ∧ TYPEOF e = .LGLSXP) ∧
        (Rf_length x = 0 ∧ Rf_length e = 0) ∧
        (OBJECT x = true ∧ OBJECT e = true) ∧
        (some (ATTRIB x) = s1.unspecified_attrib ∧
          some (ATTRIB e) = s1.unspecified_attrib) ∧
        content x = content e ∧
        (vec_is_unspecified s1 x = true ∧ vec_is_unspecified s1 e = true) :=
  ⟨ready_initialized, vec_unspecified_zero_eq_shared_empty State.ready ready_initialized⟩

/-- C12, as stated, fails: a second run of the initialisation on the state
left by the first one stores another tag and another empty instance (cells 1
and 2 are replaced by the fresh cells 4 and 5). -/
theorem reinit_changes_references :
    vctrs_init_unspecified State.boot = .ok State.ready ∧
      vctrs_init_unspecified State.ready = .ok State.reinit ∧
      State.reinit.unspecified_attrib ≠ State.ready.unspecified_attrib ∧
      State.reinit.vctrs_shared_empty_uns ≠ State.ready.vctrs_shared_empty_uns :=
  ⟨rfl, rfl, by decide, by decide⟩

/-- C12, amended: a second call of `initialize()` succeeds and rebuilds the
registry: its canonical tag and canonical empty instance have the same content
as those of the first call but are freshly allocated, so neither reference is
identical to the one of the first call; every node pinned by the first call
stays pinned. -/
theorem reinit_allocates_equal_content (s : State) :
    ∃ s1 s2 t1 t2 e1 e2,
      vctrs_init_unspecified s = .ok s1 ∧ vctrs_init_unspecified s1 = .ok s2 ∧
      s1.unspecified_attrib = some t1 ∧ s2.unspecified_attrib = some t2 ∧
      s1.vctrs_shared_empty_uns = some e1 ∧ s2.vctrs_shared_empty_uns = some e2 ∧
      t1 ≠ t2 ∧ e1 ≠ e2 ∧
      content t1 = content t2 ∧ content e1 = content e2 ∧
      (∀ a ∈ s1.precious, a ∈ s2.precious) := by
  refine ⟨_, _, _, _, _, _, vctrs_init_unspecified_eq s, vctrs_init_unspecified_eq _,
    rfl, rfl, rfl, rfl, ?_, ?_, ?_, ?_, ?_⟩
  · simp [canonical_tag]
  · simp
  · simp [canonical_tag, content]
  · simp [canonical_tag, content]
  · intro a ha
    simp only [List.mem_cons] at ha ⊢
    tauto

/-! ## Totality of the detector -/

/-- The index loop stays inside the array when it runs to the array's length,
and then computes `all_na` of the elements not yet visited. -/
theorem scan_checked_eq (p_x : List Int) (k : Nat) :
    ∀ i, i + k = p_x.length → scan_checked p_x i k = .ok (all_na (p_x.drop i)) := by
  induction k with
  | zero =>
    intro i h
    have hle : p_x.length ≤ i := by omega
    simp [scan_checked, List.drop_of_length_le hle, all_na]
  | succ k ih =>
    intro i h
    have hlt : i < p_x.length := by omega
    rw [scan_checked, List.getElem?_eq_getElem hlt, List.drop_eq_getElem_cons hlt]
    by_cases hv : p_x[i] = NA_LOGICAL
    · simp [all_na, hv, ih (i + 1) (by omega)]
    · simp [all_na, hv]

/-- With the accessors' checks kept, the detector still always leaves through
a `return`, and the value returned is the one of `vec_is_unspecified`: the
type tier guards `LOGICAL`, and the loop stops at `Rf_length(x)`. -/
theorem vec_is_unspecified_checked_eq (s : State) (x : SEXP) :
    vec_is_unspecified_checked s x = .ok (vec_is_unspecified s x) := by
  unfold vec_is_unspecified_checked vec_is_unspecified
  by_cases hty : TYPEOF x = .LGLSXP
  · cases x with
    | nil => simp [TYPEOF] at hty
    | sym name => simp [TYPEOF] at hty
    | cons a car cdr tag => simp [TYPEOF] at hty
    | vec a obj named attrib data =>
      cases data with
      | int v => simp [TYPEOF] at hty
      | str v => simp [TYPEOF] at hty
      | lgl v =>
        simp only [hty, bne_self_eq_false, Bool.false_eq_true, if_false]
        by_cases hid : some (ATTRIB (.vec a obj named attrib (.lgl v))) = s.unspecified_attrib
        · simp [hid]
        · simp only [hid, if_false]
          cases structural_tier (.vec a obj named attrib (.lgl v))
              (ATTRIB (.vec a obj named attrib (.lgl v))) with
          | some b => rfl
          | none =>
            by_cases hn : v.length = 0
            · simp [Rf_length, hn]
            · simp [Rf_length, hn, LOGICAL_checked, LOGICAL, bind, Except.bind,
                scan_checked_eq v v.length 0 (by simp)]
  · simp [hty]

/-- A vector node within the range of `R_len_t` has its length returned. -/
theorem Rf_length_rt_eq (x : SEXP) (h : Rf_length x ≤ R_LEN_T_MAX) :
    Rf_length_rt x = .ok (Rf_length x) := by
  have h2 : ¬ R_LEN_T_MAX < Rf_length x := by omega
  cases x <;> simp [Rf_length_rt, h2]

/-- When the `class` attribute of an object is absent, or is a character vector
within the range of `R_len_t`, `Rf_inherits` returns, and returns what the search of the
class strings gives. -/
theorem Rf_inherits_rt_eq (x : SEXP) (name : String)
    (hcls : OBJECT x = true → Rf_getAttrib x R_ClassSymbol = R_NilValue ∨
      (TYPEOF (Rf_getAttrib x R_ClassSymbol) = .STRSXP ∧
        Rf_length (Rf_getAttrib x R_ClassSymbol) ≤ R_LEN_T_MAX)) :
    Rf_inherits_rt x name = .ok (Rf_inherits x name) := by
  unfold Rf_inherits_rt Rf_inherits
  by_cases ho : OBJECT x = true
  · simp only [ho, if_true]
    rcases hcls ho with h | ⟨hty, hlen⟩
    · simp [h, R_NilValue, Rf_length_rt, Rf_length, strings, bind, Except.bind]
    · rw [Rf_length_rt_eq _ hlen]
      cases hk : Rf_getAttrib x R_ClassSymbol with
      | nil => simp [hk, TYPEOF] at hty
      | sym nm => simp [hk, TYPEOF] at hty
      | cons a car cdr tag => simp [hk, TYPEOF] at hty
      | vec a obj named attrib data =>
        cases data with
        | lgl v => simp [hk, TYPEOF] at hty
        | int v => simp [hk, TYPEOF] at hty
        | str v =>
          by_cases hv : v.length = 0
          · have hnil : v = [] := List.length_eq_zero.mp hv
            simp [Rf_length, strings, hnil, bind, Except.bind]
          · simp [Rf_length, strings, hv, bind, Except.bind]
  · simp [ho]

/-- Under the same condition on the `class` attribute, the block of lines
33-45 never raises. -/
theorem structural_tier_rt_eq (x : SEXP) (attrib : SEXP)
    (hcls : OBJECT x = true → Rf_getAttrib x R_ClassSymbol = R_NilValue ∨
      (TYPEOF (Rf_getAttrib x R_ClassSymbol) = .STRSXP ∧
        Rf_length (Rf_getAttrib x R_ClassSymbol) ≤ R_LEN_T_MAX)) :
    structural_tier_rt x attrib = .ok (structural_tier x attrib) := by
  unfold structural_tier_rt structural_tier
  rw [Rf_inherits_rt_eq x _ hcls]
  by_cases h0 : (attrib != R_NilValue) = true
  · by_cases h1 : Rf_inherits x "vctrs_unspecified" = true
    · simp [h0, h1, bind, Except.bind]
    · by_cases h2 : OBJECT x = true
      · simp [h0, h1, h2, bind, Except.bind]
      · by_cases h3 : has_dim x = true
        · simp [h0, h1, h2, h3, bind, Except.bind]
        · simp [h0, h1, h2, h3, bind, Except.bind]
  · simp [h0]

/-- Within the range of `R_len_t` and with a `class` attribute that is absent
or a character vector, the detector with every exit kept leaves through a
`return`, and returns the value of `vec_is_unspecified`. -/
theorem vec_is_unspecified_rt_eq (s : State) (x : SEXP)
    (hlen : Rf_length x ≤ R_LEN_T_MAX)
    (hcls : OBJECT x = true → Rf_getAttrib x R_ClassSymbol = R_NilValue ∨
      (TYPEOF (Rf_getAttrib x R_ClassSymbol) = .STRSXP ∧
        Rf_length (Rf_getAttrib x R_ClassSymbol) ≤ R_LEN_T_MAX)) :
    vec_is_unspecified_rt s x = .ok (vec_is_unspecified s x) := by
  unfold vec_is_unspecified_rt vec_is_unspecified
  by_cases hty : TYPEOF x = .LGLSXP
  · by_cases hid : some (ATTRIB x) = s.unspecified_attrib
    · simp [hty, hid]
    · simp only [hty, hid, bne_self_eq_false, Bool.false_eq_true, if_false]
      rw [structural_tier_rt_eq x _ hcls, Rf_length_rt_eq x hlen]
      cases structural_tier x (ATTRIB x) with
      | some b => simp [bind, Except.bind]
      | none =>
        cases x with
        | nil => simp [TYPEOF] at hty
        | sym name => simp [TYPEOF] at hty
        | cons a car cdr tag => simp [TYPEOF] at hty
        | vec a obj named attrib data =>
          cases data with
          | int v => simp [TYPEOF] at hty
          | str v => simp [TYPEOF] at hty
          | lgl v =>
            by_cases hn : v.length = 0
            · simp [Rf_length, hn, bind, Except.bind]
            · simp [Rf_length, hn, LOGICAL_checked, LOGICAL, bind, Except.bind,
                scan_checked_eq v v.length 0 (by simp)]
  · simp [hty]

/-- A logical vector without attributes and with more elements than an
`R_len_t` holds makes the detector raise at line 47, unless the tag global
holds `R_NilValue` (which no reachable state does). -/
theorem vec_is_unspecified_rt_long (s : State) (a : Nat) (obj named : Bool) (v : List Int)
    (hs : s.unspecified_attrib ≠ some R_NilValue) (hv : R_LEN_T_MAX < v.length) :
    vec_is_unspecified_rt s (.vec a obj named R_NilValue (.lgl v)) = .error .LongVector := by
  have hs2 : ¬ some R_NilValue = s.unspecified_attrib := fun h => hs h.symm
  simp [vec_is_unspecified_rt, TYPEOF, ATTRIB, hs2, structural_tier_rt, Rf_length_rt,
    Rf_length, hv, bind, Except.bind]

/-- C13, as stated, fails: after initialisation, on the attribute-less logical
vector `rep(NA, 2^31)` the call of `Rf_length` at line 47 raises the R error
for long vectors, so `vec_is_unspecified` leaves without a boolean; and on the
C-built logical vector whose `class` attribute is an integer vector, the call
of `Rf_inherits` at line 36 raises. -/
theorem vec_is_unspecified_rt_raises :
    Initialized State.ready ∧
      (TYPEOF long_na = .LGLSXP ∧ ATTRIB long_na = R_NilValue ∧
        Rf_length long_na = 2147483648 ∧
        vec_is_unspecified_rt State.ready long_na = .error .LongVector) ∧
      (TYPEOF int_classed_na = .LGLSXP ∧
        vec_is_unspecified_rt State.ready int_classed_na = .error .InvalidType) := by
  refine ⟨ready_initialized, ⟨rfl, rfl, ?_, ?_⟩, ⟨rfl, rfl⟩⟩
  · simp only [long_na, Rf_length, List.length_replicate]
  · exact vec_is_unspecified_rt_long State.ready 90 false false _
      (by simp [State.ready, canonical_tag, R_NilValue])
      (by simp only [List.length_replicate, R_LEN_T_MAX]; decide)

/-- C13, amended: `is_sentinel` never raises on a value `x` whose length fits
`R_len_t` (at most 2147483647 elements) and whose `class` attribute is absent
or a character vector of such a length (asked only of an `x` that is marked as
an object, since no other has its class read).  For every such `x` (any type,
any other attributes) and in every state of the registry it leaves through a
`return` with a boolean, the one `vec_is_unspecified` computes; every
non-sentinel outcome is the ordinary result `false`. -/
theorem vec_is_unspecified_rt_total (s : State) (x : SEXP)
    (hlen : Rf_length x ≤ R_LEN_T_MAX)
    (hcls : OBJECT x = true → Rf_getAttrib x R_ClassSymbol = R_NilValue ∨
      (TYPEOF (Rf_getAttrib x R_ClassSymbol) = .STRSXP ∧
        Rf_length (Rf_getAttrib x R_ClassSymbol) ≤ R_LEN_T_MAX)) :
    ∃ b : Bool, vec_is_unspecified_rt s x = .ok b ∧ vec_is_unspecified s x = b ∧
      (b = true ∨ vec_is_unspecified_rt s x = .ok false) := by
  have hok : vec_is_unspecified_rt s x = .ok (vec_is_unspecified s x) :=
    vec_is_unspecified_rt_eq s x hlen hcls
  refine ⟨vec_is_unspecified s x, hok, rfl, ?_⟩
  rw [hok]
  cases vec_is_unspecified s x
  · exact Or.inr rfl
  · exact Or.inl rfl

theorem vec_is_unspecified_rt_total_witness :
    Rf_length foo_na ≤ R_LEN_T_MAX ∧
      (OBJECT foo_na = true → Rf_getAttrib foo_na R_ClassSymbol = R_NilValue ∨
        (TYPEOF (Rf_getAttrib foo_na R_ClassSymbol) = .STRSXP ∧
          Rf_length (Rf_getAttrib foo_na R_ClassSymbol) ≤ R_LEN_T_MAX)) ∧
      ∃ b : Bool, vec_is_unspecified_rt State.ready foo_na = .ok b ∧
        vec_is_unspecified State.ready foo_na = b ∧
        (b = true ∨ vec_is_unspecified_rt State.ready foo_na = .ok false) :=
  ⟨by decide, fun _ => Or.inr ⟨by decide, by decide⟩,
    vec_is_unspecified_rt_total State.ready foo_na (by decide)
      (fun _ => Or.inr ⟨by decide, by decide⟩)⟩

/-! ## Which vectors reach the scan -/

/-- With attributes on `x`, the block of lines 33-45 returns as soon as one of
its three checks holds, and what it returns is the answer of `Rf_inherits`. -/
theorem structural_tier_decides (x : SEXP) (hattr : ATTRIB x ≠ R_NilValue)
    (h : Rf_inherits x "vctrs_unspecified" = true ∨ OBJECT x = true ∨ has_dim x = true) :
    structural_tier x (ATTRIB x) = some (Rf_inherits x "vctrs_unspecified") := by
  have hattr2 : (ATTRIB x != R_NilValue) = true := by simpa using hattr
  unfold structural_tier
  rw [if_pos hattr2]
  by_cases h1 : Rf_inherits x "vctrs_unspecified" = true
  · simp [h1]
  · by_cases h2 : OBJECT x = true
    · simp [h1, h2]
    · by_cases h3 : has_dim x = true
      · simp [h1, h2, h3]
      · rcases h with h | h | h
        · exact absurd h h1
        · exact absurd h h2
        · exact absurd h h3

/-- C14, as stated, fails: `c(a = NA)` and `c(a = FALSE)` both carry an
attribute (`names`), carry the same attributes and the same header bits, and
differ only in their element; `vec_is_unspecified` answers true on the first
and false on the second, so the scan has decided. -/
theorem named_vectors_reach_scan :
    Initialized State.ready ∧
      (TYPEOF named_na = .LGLSXP ∧ TYPEOF named_false = .LGLSXP) ∧
      (ATTRIB named_na ≠ R_NilValue ∧ ATTRIB named_false ≠ R_NilValue) ∧
      content (ATTRIB named_na) = content (ATTRIB named_false) ∧
      OBJECT named_na = OBJECT named_false ∧
      vec_is_unspecified State.ready named_na = true ∧
      vec_is_unspecified State.ready named_false = false :=
  ⟨ready_initialized, ⟨by decide, by decide⟩, ⟨by decide, by decide⟩, by decide, by decide,
    by decide, by decide⟩

/-- C14, amended: the fallback scan is skipped when `x` carries an attribute
pairlist that is the canonical tag itself, or carries attributes and has
`"vctrs_unspecified"` among its recognised class names, is marked as an
object, or has `dim` metadata: for such a boolean vector the result does not
depend on its length or element values (nor on where it is allocated).  A
vector whose attributes are of none of these kinds still reaches the scan. -/
theorem decided_before_scan (s : State) (attrib : SEXP) (obj : Bool)
    (a a2 : Nat) (named named2 : Bool) (v v2 : List Int)
    (hattr : attrib ≠ R_NilValue)
    (h : some attrib = s.unspecified_attrib ∨
      sentinel_class ∈ class_names (.vec a obj named attrib (.lgl v)) ∨
      obj = true ∨ has_dim (.vec a obj named attrib (.lgl v)) = true) :
    vec_is_unspecified s (.vec a obj named attrib (.lgl v)) =
      vec_is_unspecified s (.vec a2 obj named2 attrib (.lgl v2)) := by
  have hinh : Rf_inherits (.vec a2 obj named2 attrib (.lgl v2)) "vctrs_unspecified" =
      Rf_inherits (.vec a obj named attrib (.lgl v)) "vctrs_unspecified" := by
    simp [Rf_inherits, OBJECT, Rf_getAttrib, ATTRIB]
  have hdim : has_dim (.vec a2 obj named2 attrib (.lgl v2)) =
      has_dim (.vec a obj named attrib (.lgl v)) := by
    simp [has_dim, Rf_getAttrib, ATTRIB]
  by_cases hid : some attrib = s.unspecified_attrib
  · simp [vec_is_unspecified, TYPEOF, ATTRIB, hid]
  · have hkind : Rf_inherits (.vec a obj named attrib (.lgl v)) "vctrs_unspecified" = true ∨
        OBJECT (.vec a obj named attrib (.lgl v)) = true ∨
        has_dim (.vec a obj named attrib (.lgl v)) = true := by
      rcases h with h | h | h | h
      · exact absurd h hid
      · exact Or.inl ((Rf_inherits_iff _ _).2 h)
      · exact Or.inr (Or.inl h)
      · exact Or.inr (Or.inr h)
    have hkind2 : Rf_inherits (.vec a2 obj named2 attrib (.lgl v2)) "vctrs_unspecified" = true ∨
        OBJECT (.vec a2 obj named2 attrib (.lgl v2)) = true ∨
        has_dim (.vec a2 obj named2 attrib (.lgl v2)) = true := by
      rw [hinh, hdim]
      exact hkind
    rw [vec_is_unspecified_of_ne s _ (by simp [TYPEOF]) (by simpa [ATTRIB] using hid),
      vec_is_unspecified_of_ne s _ (by simp [TYPEOF]) (by simpa [ATTRIB] using hid),
      structural_tier_decides _ (by simpa [ATTRIB] using hattr) hkind,
      structural_tier_decides _ (by simpa [ATTRIB] using hattr) hkind2, hinh]

theorem decided_before_scan_witness :
    (canonical_tag 31 32) ≠ R_NilValue ∧
      (some (canonical_tag 31 32) = State.ready.unspecified_attrib ∨
        sentinel_class ∈
          class_names (.vec 30 true false (canonical_tag 31 32) (.lgl [NA_LOGICAL])) ∨
        true = true ∨
        has_dim (.vec 30 true false (canonical_tag 31 32) (.lgl [NA_LOGICAL])) = true) ∧
      vec_is_unspecified State.ready
          (.vec 30 true false (canonical_tag 31 32) (.lgl [NA_LOGICAL])) =
        vec_is_unspecified State.ready
          (.vec 33 true false (canonical_tag 31 32) (.lgl [0, 1])) :=
  ⟨by decide, Or.inr (Or.inl (by decide)),
    decided_before_scan State.ready (canonical_tag 31 32) true 30 33 false false
      [NA_LOGICAL] [0, 1] (by decide) (Or.inr (Or.inl (by decide)))⟩

/-! ## The registry is only read -/

/-- C15: `create(n)` and `is_sentinel(x)` never change the registry.  After
`initialize()` and for every `n ≥ 0`, `vec_unspecified` returns, and the state
it leaves has the same canonical tag (the same node, hence the same class-name
content), the same canonical empty instance and the same pinned nodes; every
verdict of `vec_is_unspecified` is the same after the call as before it.
`vec_is_unspecified` itself has no assignment and calls no setter: it maps the
state and `x` to a boolean and leaves no new state. -/
theorem vec_unspecified_frame (s : State) (n : Int)
    (hs : Initialized s) (hn : 0 ≤ n) :
    ∃ x s1, vec_unspecified s n = .ok (x, s1) ∧
      s1.unspecified_attrib = s.unspecified_attrib ∧
      s1.vctrs_shared_empty_uns = s.vctrs_shared_empty_uns ∧
      s1.precious = s.precious ∧
      ∀ y, vec_is_unspecified s1 y = vec_is_unspecified s y := by
  obtain ⟨a, b, ht⟩ := initialized_tag hs
  refine ⟨_, _, vec_unspecified_eq s n a b hn ht, rfl, rfl, rfl, ?_⟩
  intro y
  rfl

theorem vec_unspecified_frame_witness :
    Initialized State.ready ∧ (0 : Int) ≤ 2 ∧
      ∃ x s1, vec_unspecified State.ready 2 = .ok (x, s1) ∧
        s1.unspecified_attrib = State.ready.unspecified_attrib ∧
        s1.vctrs_shared_empty_uns = State.ready.vctrs_shared_empty_uns ∧
        s1.precious = State.ready.precious ∧
        ∀ y, vec_is_unspecified s1 y = vec_is_unspecified State.ready y :=
  ⟨ready_initialized, by decide, vec_unspecified_frame State.ready 2 ready_initialized (by decide)⟩

/-! ## Before the initialisation -/

/-- C17: a boolean vector whose attribute pairlist is the canonical tag itself
is a sentinel, whatever its length, its elements and its OBJECT bit: the
function returns at the pointer comparison, through a `return true`. -/
theorem is_unspecified_of_identity (s : State) (x : SEXP)
    (hty : TYPEOF x = .LGLSXP)
    (hid : some (ATTRIB x) = s.unspecified_attrib) :
    vec_is_unspecified s x = true ∧ vec_is_unspecified_checked s x = .ok true := by
  have h : vec_is_unspecified s x = true := by
    simp [vec_is_unspecified, hty, hid]
  exact ⟨h, by rw [vec_is_unspecified_checked_eq, h]⟩

theorem is_unspecified_of_identity_witness :
    TYPEOF tagged_plain_false = .LGLSXP ∧
      some (ATTRIB tagged_plain_false) = State.ready.unspecified_attrib ∧
      (vec_is_unspecified State.ready tagged_plain_false = true ∧
        vec_is_unspecified_checked State.ready tagged_plain_false = .ok true) :=
  ⟨by decide, by decide,
    is_unspecified_of_identity State.ready tagged_plain_false (by decide) (by decide)⟩

/-- In a reachable state, a vector that carries the canonical tag itself has a
`class` attribute that holds the sentinel class name. -/
theorem reachable_tagged_class {s : State} (hs : Reachable s) (x : SEXP)
    (h : some (ATTRIB x) = s.unspecified_attrib) :
    sentinel_class ∈ strings (Rf_getAttrib x R_ClassSymbol) := by
  rcases reachable_tag hs with h1 | ⟨a, b, h1⟩
  · rw [h1] at h
    cases h
  · rw [h1] at h
    injection h with h
    simp [Rf_getAttrib, h, canonical_tag, getAttrib0, strings]

/-- C18: a boolean vector that carries attributes but is not marked as an
object, has no class attribute holding `"vctrs_unspecified"` and has no `dim`
(a vector with only `names`, say) falls through to the scan: it is a sentinel
exactly when its length is `> 0` and every element is `NA`. -/
theorem attributed_reaches_scan (s : State) (x : SEXP)
    (hs : Reachable s)
    (hty : TYPEOF x = .LGLSXP)
    (hattr : ATTRIB x ≠ R_NilValue)
    (hobj : OBJECT x = false)
    (hcls : sentinel_class ∉ strings (Rf_getAttrib x R_ClassSymbol))
    (hdim : has_dim x = false) :
    vec_is_unspecified s x = true ↔
      0 < Rf_length x ∧ ∀ v ∈ LOGICAL x, v = NA_LOGICAL := by
  have hne : some (ATTRIB x) ≠ s.unspecified_attrib := fun h =>
    hcls (reachable_tagged_class hs x h)
  have hinh : Rf_inherits x "vctrs_unspecified" = false := by
    simp [Rf_inherits, hobj]
  rw [vec_is_unspecified_of_ne s x hty hne]
  by_cases hlen : Rf_length x = 0
  · simp [structural_tier, hattr, hinh, hobj, hdim, hlen]
  · have hpos : 0 < Rf_length x := by omega
    simp [structural_tier, hattr, hinh, hobj, hdim, hlen, hpos, all_na_iff]

theorem attributed_reaches_scan_witness :
    Reachable State.ready ∧ TYPEOF named_na = .LGLSXP ∧ ATTRIB named_na ≠ R_NilValue ∧
      OBJECT named_na = false ∧
      sentinel_class ∉ strings (Rf_getAttrib named_na R_ClassSymbol) ∧
      has_dim named_na = false ∧
      (vec_is_unspecified State.ready named_na = true ↔
        0 < Rf_length named_na ∧ ∀ v ∈ LOGICAL named_na, v = NA_LOGICAL) :=
  ⟨ready_initialized.1, by decide, by decide, by decide, by decide, by decide,
    attributed_reaches_scan State.ready named_na ready_initialized.1 (by decide) (by decide)
      (by decide) (by decide) (by decide)⟩

/-! ## The decision table -/

theorem all_na_eq_all (l : List Int) : all_na l = l.all (fun v => v == NA_LOGICAL) := by
  induction l with
  | nil => rfl
  | cons a l ih =>
    by_cases ha : a = NA_LOGICAL
    · simp [all_na, ha, ih]
    · simp [all_na, ha]

theorem Rf_inherits_eq_contains (x : SEXP) :
    Rf_inherits x "vctrs_unspecified" = (class_names x).contains sentinel_class := by
  rw [Bool.eq_iff_iff, Rf_inherits_iff]
  simp [sentinel_class]

/-- C19: decision-table equivalence.  For every value `x` and every state of
the registry, the ordered chain of `vec_is_unspecified` computes exactly the
closed formula `decision_table`. -/
theorem vec_is_unspecified_eq_decision_table (s : State) (x : SEXP) :
    vec_is_unspecified s x = decision_table s x := by
  unfold vec_is_unspecified decision_table
  by_cases hty : TYPEOF x = .LGLSXP
  · by_cases hid : some (ATTRIB x) = s.unspecified_attrib
    · simp [hty, hid]
    · simp only [hty, hid, bne_self_eq_false, Bool.false_eq_true, if_false, beq_self_eq_true,
        Bool.true_and, decide_False, Bool.false_or]
      rw [← Rf_inherits_eq_contains, ← all_na_eq_all]
      unfold structural_tier
      by_cases h0 : ATTRIB x = R_NilValue
      · by_cases hlen : Rf_length x = 0
        · simp [h0, hlen]
        · have hpos : 0 < Rf_length x := by omega
          simp [h0, hlen, hpos]
      · have h0b : (ATTRIB x != R_NilValue) = true := by simpa using h0
        simp only [h0b, if_true, Bool.true_and]
        by_cases h1 : Rf_inherits x "vctrs_unspecified" = true
        · simp [h1]
        · by_cases h2 : OBJECT x = true
          · simp [h1, h2]
          · by_cases h3 : has_dim x = true
            · simp [h1, h2, h3]
            · by_cases hlen : Rf_length x = 0
              · simp [h1, h2, h3, hlen]
              · have hpos : 0 < Rf_length x := by omega
                simp [h1, h2, h3, hlen, hpos]
  · simp [hty]

end Tibblify
